import Mathlib

/-!
Verification of the U-Time-PyTorch model and training-script contracts.

The repository ships the tests (tests/models/test_utime.py) and the training
entry script (utime/bin/train.py).  The model file utime/models/utime.py is
not part of the sources available here, so the shape-level semantics of its
blocks are modelled from the specification (spec.md sections 3, 4, 7, 8) and
cross-checked against the assertions of the shipped tests.  The training
script is embedded directly from its source.
-/

/-- Modelled from the spec: a Tensor is abstracted by its 4-axis shape
(batch, channel, spatial, time); spec section 3 fixes the axes as
(batch, channel, spatial=1, time).  All block contracts in the claims are
shape contracts, so the embedding tracks shapes. -/
structure Shape where
  b : Nat
  c : Nat
  s : Nat
  t : Nat
deriving DecidableEq, Repr

/-- Modelled from the spec: SingleConvBlock (spec section 4.1), constructed
from the in and out channel widths; utime/models/utime.py is missing from
the sources. -/
structure SingleConvBlock where
  in_ch : Nat
  out_ch : Nat
deriving DecidableEq, Repr

/-- Modelled from the spec: SingleConvBlock forward (spec section 4.1):
input (B, C_in, 1, T) gives output (B, C_out, 1, T), the same-padding
convolution preserving batch, spatial and time axes; an input whose channel
axis does not match the constructed C_in is rejected. -/
def SingleConvBlock.forward (m : SingleConvBlock) (x : Shape) : Option Shape :=
  if x.c = m.in_ch then some ⟨x.b, m.out_ch, x.s, x.t⟩ else none

/-- Modelled from the spec: DoubleConvBlock (spec section 4.2), two chained
SingleConvBlocks, the first channel-expanding, the second
channel-preserving. -/
structure DoubleConvBlock where
  in_ch : Nat
  out_ch : Nat
deriving DecidableEq, Repr

/-- Modelled from the spec: the first convolution of a DoubleConvBlock maps
C_in to C_out. -/
def DoubleConvBlock.conv1 (m : DoubleConvBlock) : SingleConvBlock :=
  ⟨m.in_ch, m.out_ch⟩

/-- Modelled from the spec: the second convolution of a DoubleConvBlock
preserves C_out. -/
def DoubleConvBlock.conv2 (m : DoubleConvBlock) : SingleConvBlock :=
  ⟨m.out_ch, m.out_ch⟩

/-- Modelled from the spec: DoubleConvBlock forward chains the two
SingleConvBlock forwards (spec section 4.2). -/
def DoubleConvBlock.forward (m : DoubleConvBlock) (x : Shape) : Option Shape :=
  (m.conv1.forward x).bind m.conv2.forward

/-- Modelled from the spec: DownBlock (spec section 4.3), a DoubleConvBlock
followed by non-overlapping temporal pooling with factor pool_size. -/
structure DownBlock where
  in_ch : Nat
  out_ch : Nat
  pool_size : Nat
deriving DecidableEq, Repr

/-- Modelled from the spec: the DoubleConvBlock inside a DownBlock. -/
def DownBlock.conv (m : DownBlock) : DoubleConvBlock :=
  ⟨m.in_ch, m.out_ch⟩

/-- Modelled from the spec: non-overlapping temporal pooling divides the
time axis by pool_size; when T is not evenly divisible the floor rule drops
trailing samples (spec section 4.3 edge case). -/
def DownBlock.pool (m : DownBlock) (x : Shape) : Shape :=
  ⟨x.b, x.c, x.s, x.t / m.pool_size⟩

/-- Modelled from the spec: DownBlock forward (spec section 4.3) applies the
DoubleConvBlock to obtain the residual, pools it, and returns the pair
(pooled, residual). -/
def DownBlock.forward (m : DownBlock) (x : Shape) : Option (Shape × Shape) :=
  (m.conv.forward x).map (fun residual => (m.pool residual, residual))

/-- Modelled from the spec: UTimeEncoder (spec section 4.4), constructed
from the input channel width, depth and the pool schedule. -/
structure UTimeEncoder where
  in_ch : Nat
  depth : Nat
  pools : List Nat
deriving DecidableEq, Repr

/-- Modelled from the spec: the realized filter schedule exposed as
net.filters.  Spec section 8 and the shipped test
test_UTimeEncoder__01 (tests/models/test_utime.py line 128) fix the realized
values: for in_ch 32 and depth 2 the schedule is [64, 128, 128], i.e. entry
i for i < depth is in_ch * 2 ^ (i + 1) and the final entry repeats
in_ch * 2 ^ depth; its length is depth + 1. -/
def UTimeEncoder.filters (e : UTimeEncoder) : List Nat :=
  (List.range e.depth).map (fun i => e.in_ch * 2 ^ (i + 1)) ++ [e.in_ch * 2 ^ e.depth]

/-- Modelled from the spec: the stage recursion of the encoder forward.
Each stage applies a DownBlock doubling the running channel width with the
head of the remaining pool schedule, collecting the residual as a skip; at
the bottom a channel-preserving DoubleConvBlock is applied (spec
sections 4.3 and 4.4). -/
def UTimeEncoder.stageForward : Nat → List Nat → Shape → Option (Shape × List Shape)
  | c, [], x =>
      ((DoubleConvBlock.mk c c).forward x).map (fun y => (y, []))
  | c, p :: ps, x =>
      match (DownBlock.mk c (2 * c) p).forward x with
      | none => none
      | some (pooled, residual) =>
          (UTimeEncoder.stageForward (2 * c) ps pooled).map
            (fun yr => (yr.1, residual :: yr.2))

/-- Modelled from the spec: UTimeEncoder forward (spec section 4.4) returns
the bottleneck feature map together with the skip list, ordered stage 0 to
stage depth - 1. -/
def UTimeEncoder.forward (e : UTimeEncoder) (x : Shape) : Option (Shape × List Shape) :=
  UTimeEncoder.stageForward e.in_ch e.pools x

/-- Modelled from the spec: SegmentClassifier (spec section 4.8),
constructed from the incoming class-logit width and the window size
data_per_period. -/
structure SegmentClassifier where
  in_ch : Nat
  data_per_period : Nat
deriving DecidableEq, Repr

/-- Modelled from the spec: SegmentClassifier forward (spec section 4.8)
aggregates each non-overlapping window of data_per_period per-sample logit
vectors into one per-segment vector, giving output
(B, n_classes, 1, T / data_per_period); a T not evenly divisible by
data_per_period is a configuration or input error, rejected eagerly. -/
def SegmentClassifier.forward (m : SegmentClassifier) (x : Shape) : Option Shape :=
  if x.c = m.in_ch ∧ 0 < m.data_per_period ∧ m.data_per_period ∣ x.t then
    some ⟨x.b, m.in_ch, x.s, x.t / m.data_per_period⟩
  else none

/-- Modelled from the spec: UpBlock (spec section 4.5), constructed from the
decoder feature-map channel width C1 and the output width C_out. -/
structure UpBlock where
  in_ch : Nat
  out_ch : Nat
deriving DecidableEq, Repr

/-- Modelled from the spec: the upsampling step of an UpBlock resamples x1
along time to the target length and halves its channel width, so that the
concatenation below restores width C1 (spec section 4.5: resulting width
C1/2 + C2 = C1). -/
def UpBlock.upsample (u : UpBlock) (x1 : Shape) (tTarget : Nat) : Shape :=
  ⟨x1.b, u.in_ch / 2, x1.s, tTarget⟩

/-- Modelled from the spec: channel-axis concatenation of two feature maps,
defined when batch, spatial and time axes agree; the channel widths add. -/
def catChannels (x y : Shape) : Option Shape :=
  if x.b = y.b ∧ x.s = y.s ∧ x.t = y.t then
    some ⟨x.b, x.c + y.c, x.s, x.t⟩
  else none

/-- Modelled from the spec: UpBlock forward (spec section 4.5): upsample x1
to the time length of x2, concatenate channel-wise with x2, and apply a
DoubleConvBlock mapping the concatenated width C1 to C_out. -/
def UpBlock.forward (u : UpBlock) (x1 x2 : Shape) : Option Shape :=
  if x1.c = u.in_ch then
    match catChannels (u.upsample x1 x2.t) x2 with
    | some z => (DoubleConvBlock.mk u.in_ch u.out_ch).forward z
    | none => none
  else none

/-- Modelled from the spec: the configuration-error taxonomy of spec
section 7 relevant to construction-time validation. -/
inductive ConfigError
  | poolLengthMismatch
  | nonPositiveWidth
  | indivisibleTemporal
deriving DecidableEq, Repr

/-- Modelled from the spec: the construction configuration of the top-level
UTime model (spec section 4.9): class count, batch shape, depth, pool
schedule and the segment-classifier window size. -/
structure UTimeConfig where
  n_classes : Nat
  batch_shape : Shape
  depth : Nat
  pools : List Nat
  data_per_period : Nat
deriving DecidableEq, Repr

/-- Modelled from the spec: the total temporal downsampling factor is the
product of the pool-schedule entries (spec section 4.4 invariant). -/
def poolProduct (pools : List Nat) : Nat :=
  pools.foldl (fun a p => a * p) 1

/-- Modelled from the spec: a constructed UTime model, wrapping its
validated configuration (spec section 4.9). -/
structure UTime where
  cfg : UTimeConfig
deriving DecidableEq, Repr

/-- Modelled from the spec: UTime construction (spec sections 4.9, 6, 7);
utime/models/utime.py is missing from the sources.  Construction validates,
before any forward call, that the pool-schedule length equals the depth,
that the channel widths are positive (channel widths are naturals here, so
non-positive means zero), and that the temporal length of the batch shape
is evenly divisible by the product of the pool schedule and by the segment
classifier window size; any violation is a ConfigError returned at
construction. -/
def UTime.build (cfg : UTimeConfig) : Except ConfigError UTime :=
  if cfg.pools.length ≠ cfg.depth then
    Except.error ConfigError.poolLengthMismatch
  else if cfg.batch_shape.c = 0 ∨ cfg.n_classes = 0 then
    Except.error ConfigError.nonPositiveWidth
  else if ¬ poolProduct cfg.pools ∣ cfg.batch_shape.t then
    Except.error ConfigError.indivisibleTemporal
  else if ¬ cfg.data_per_period ∣ cfg.batch_shape.t then
    Except.error ConfigError.indivisibleTemporal
  else Except.ok ⟨cfg⟩

/-- Embedding of the parsed command-line arguments of utime/bin/train.py
that assert_args inspects (get_argparser, lines 12 to 55 of the source).
continue_training is a store_true flag, initialize_from a string option
defaulting to None, the two sample counts are numbers, n_epochs an optional
integer defaulting to None. -/
structure TrainArgs where
  continue_training : Bool
  initialize_from : Option String
  max_train_samples_per_epoch : Int
  val_samples_per_epoch : Int
  n_epochs : Option Int
deriving DecidableEq, Repr

/-- Python truthiness of an optional string: None and the empty string are
falsy, every other string is truthy. -/
def optStrTruthy : Option String → Bool
  | none => false
  | some s => !s.isEmpty

/-- Embedding of assert_args from utime/bin/train.py (lines 58 to 67): it
raises ValueError when continue_training and initialize_from are both
truthy, when max_train_samples_per_epoch or val_samples_per_epoch is below
one, or when n_epochs is not None and below one; otherwise it returns
normally.  An Except.error value stands for the raised ValueError with its
message. -/
def assert_args (args : TrainArgs) : Except String Unit :=
  if args.continue_training && optStrTruthy args.initialize_from then
    Except.error "Should not specify both --continue_training and --initialize_from"
  else if args.max_train_samples_per_epoch < 1 ∨ args.val_samples_per_epoch < 1 then
    Except.error "max_train_samples_per_epoch and val_samples_per_epoch must be >= 1."
  else
    match args.n_epochs with
    | some n => if n < 1 then Except.error "n_epochs must be larger than >= 1." else Except.ok ()
    | none => Except.ok ()

/-- Observable events of entry_func in utime/bin/train.py (lines 196 to
209): the GPUMonitor is started, run is invoked, and the monitor may be
stopped. -/
inductive TrainEvent
  | startGpuMonitor
  | runTraining
  | stopGpuMonitor
deriving DecidableEq, Repr

/-- Embedding of entry_func from utime/bin/train.py (lines 196 to 209) with
the outcome of run abstracted as an Except value.  The source starts a
GPUMonitor, calls run inside a try block, and only in the except branch
calls gpu_mon.stop() before re-raising the caught exception; a successful
run reaches no stop call.  The result is the list of events in order,
paired with the propagated outcome. -/
def entry_func (runResult : Except String Unit) : List TrainEvent × Except String Unit :=
  match runResult with
  | Except.ok () =>
      ([TrainEvent.startGpuMonitor, TrainEvent.runTraining], Except.ok ())
  | Except.error e =>
      ([TrainEvent.startGpuMonitor, TrainEvent.runTraining, TrainEvent.stopGpuMonitor],
        Except.error e)

/-- C1: a UTimeEncoder with depth 2 and pools [4, 5] applied to an input of
shape (10, 32, 1, 100) yields an output feature map of channel width 128
and time length 5, a skip list of length 2, and a realized filter schedule
equal to [64, 128, 128] of length depth + 1 = 3. -/
theorem utime_encoder_depth2_pools45_concrete :
    UTimeEncoder.forward ⟨32, 2, [4, 5]⟩ ⟨10, 32, 1, 100⟩ =
      some (⟨10, 128, 1, 5⟩, [⟨10, 64, 1, 100⟩, ⟨10, 128, 1, 25⟩]) ∧
    (UTimeEncoder.forward ⟨32, 2, [4, 5]⟩ ⟨10, 32, 1, 100⟩).map
        (fun yr => yr.2.length) = some 2 ∧
    UTimeEncoder.filters ⟨32, 2, [4, 5]⟩ = [64, 128, 128] ∧
    (UTimeEncoder.filters ⟨32, 2, [4, 5]⟩).length = 2 + 1 := by
  refine ⟨by decide, by decide, by decide, by decide⟩

/-- C2 counterexample: for the encoder with input width 32, depth 2 and
pools [4, 5] the realized filter schedule is [64, 128, 128]; it does not
include the input width 32, and its last entry does not double the
previous one, refuting the claimed invariant at this concrete encoder. -/
theorem utime_encoder_filters_doubling_counterexample :
    32 ∉ UTimeEncoder.filters ⟨32, 2, [4, 5]⟩ ∧
    (UTimeEncoder.filters ⟨32, 2, [4, 5]⟩).getD 2 0 ≠
      2 * (UTimeEncoder.filters ⟨32, 2, [4, 5]⟩).getD 1 0 := by
  decide

/-- C2 (amended): for every UTimeEncoder with input width C_in, depth d and
a pool schedule of length d, the realized FilterSchedule has length d + 1;
it does not contain the input width itself: entry i for i < d equals
C_in * 2 ^ (i + 1) (the first stage width is C_in × 2 and each stage up to
stage d - 1 doubles the previous stage), and the final entry repeats the
last stage width C_in * 2 ^ d instead of doubling it. -/
theorem utime_encoder_filters_schedule (e : UTimeEncoder)
    (h : e.pools.length = e.depth) :
    e.filters.length = e.depth + 1 ∧
    (∀ i, i < e.depth → e.filters.getD i 0 = e.in_ch * 2 ^ (i + 1)) ∧
    e.filters.getD e.depth 0 = e.in_ch * 2 ^ e.depth := by
  refine ⟨?_, ?_, ?_⟩
  · simp [UTimeEncoder.filters]
  · intro i hi
    rw [UTimeEncoder.filters, List.getD_eq_getElem?_getD, List.getElem?_append,
      List.getElem?_map, List.getElem?_range hi]
    simp [hi]
  · rw [UTimeEncoder.filters, List.getD_eq_getElem?_getD,
      List.getElem?_append_right (by simp)]
    simp

/-- C2 witness: the amended schedule law evaluated at the encoder with
input width 32, depth 2 and pools [4, 5]. -/
theorem utime_encoder_filters_schedule_witness :
    (UTimeEncoder.filters ⟨32, 2, [4, 5]⟩).length = 2 + 1 ∧
    (∀ i, i < 2 → (UTimeEncoder.filters ⟨32, 2, [4, 5]⟩).getD i 0 = 32 * 2 ^ (i + 1)) ∧
    (UTimeEncoder.filters ⟨32, 2, [4, 5]⟩).getD 2 0 = 32 * 2 ^ 2 :=
  utime_encoder_filters_schedule ⟨32, 2, [4, 5]⟩ (by decide)

/-- C3: a DownBlock with pool factor p at least 1 dividing T maps an input
of shape (B, C_in, 1, T) to the pair (pooled, residual) with pooled of
shape (B, C_out, 1, T / p) and residual of shape (B, C_out, 1, T); with
p = 1 the pooled time length is T unchanged. -/
theorem down_block_forward_shapes (b cin cout p t : Nat)
    (hp : 1 ≤ p) (hdvd : p ∣ t) :
    (DownBlock.mk cin cout p).forward ⟨b, cin, 1, t⟩ =
      some (⟨b, cout, 1, t / p⟩, ⟨b, cout, 1, t⟩) ∧
    (p = 1 → t / p = t) := by
  constructor
  · simp [DownBlock.forward, DownBlock.conv, DownBlock.pool,
      DoubleConvBlock.forward, DoubleConvBlock.conv1, DoubleConvBlock.conv2,
      SingleConvBlock.forward]
  · rintro rfl
    simp

/-- C3 witness: the DownBlock law evaluated at C_in = C_out = 32,
pool factor 4 and T = 100, the parametrization of test_DownBlock__01. -/
theorem down_block_forward_shapes_witness :
    (DownBlock.mk 32 32 4).forward ⟨10, 32, 1, 100⟩ =
      some (⟨10, 32, 1, 25⟩, ⟨10, 32, 1, 100⟩) :=
  (down_block_forward_shapes 10 32 32 4 100 (by decide) (by decide)).1

/-- C4: for every configuration that is invalid — pool-schedule length
different from depth, a non-positive channel width (zero input width or
zero class count), or a temporal length not evenly divisible by the product
of the pool schedule or by the segment-classifier window size — UTime
construction returns a configuration error, before any forward call. -/
theorem utime_build_rejects_invalid (cfg : UTimeConfig)
    (h : cfg.pools.length ≠ cfg.depth ∨ cfg.batch_shape.c = 0 ∨ cfg.n_classes = 0 ∨
      ¬ poolProduct cfg.pools ∣ cfg.batch_shape.t ∨
      ¬ cfg.data_per_period ∣ cfg.batch_shape.t) :
    ∃ e, UTime.build cfg = Except.error e := by
  cases hb : UTime.build cfg with
  | error e => exact ⟨e, rfl⟩
  | ok m =>
    exfalso
    unfold UTime.build at hb
    split_ifs at hb with h1 h2 h3 h4 <;>
      first
        | exact Except.noConfusion hb
        | tauto

/-- C4 witness: the construction check rejects the configuration whose
pool-schedule [4, 5, 6] has length 3 while depth is 2. -/
theorem utime_build_rejects_invalid_witness :
    ∃ e, UTime.build ⟨10, ⟨10, 6, 1, 100⟩, 2, [4, 5, 6], 10⟩ = Except.error e :=
  utime_build_rejects_invalid ⟨10, ⟨10, 6, 1, 100⟩, 2, [4, 5, 6], 10⟩
    (Or.inl (by decide))

/-- C5: a SegmentClassifier with window size d at least 1 maps per-sample
logits of shape (B, n_classes, 1, T) to per-segment logits of shape
(B, n_classes, 1, T / d) when d evenly divides T, and rejects a T not
evenly divisible by d as an input error. -/
theorem segment_classifier_forward_shapes (b s t d nc : Nat) (hd : 0 < d) :
    (d ∣ t →
      SegmentClassifier.forward ⟨nc, d⟩ ⟨b, nc, s, t⟩ = some ⟨b, nc, s, t / d⟩) ∧
    (¬ d ∣ t → SegmentClassifier.forward ⟨nc, d⟩ ⟨b, nc, s, t⟩ = none) := by
  constructor <;> intro hdvd <;> simp [SegmentClassifier.forward, hd, hdvd]

/-- C5 witness: the SegmentClassifier law evaluated at window size 10 on
time length 100 with 10 classes, the parametrization of
test_SegmentClassifier__01: the output time length is 10. -/
theorem segment_classifier_forward_shapes_witness :
    SegmentClassifier.forward ⟨10, 10⟩ ⟨10, 10, 1, 100⟩ = some ⟨10, 10, 1, 10⟩ :=
  (segment_classifier_forward_shapes 10 1 100 10 10 (by decide)).1 (by decide)

/-- C6: an UpBlock of declared input width C1 = 2 * C2, given x1 of shape
(B, C1, 1, T1) and a skip x2 of shape (B, C2, 1, T2) with T2 at least T1,
upsamples x1 to time length T2, concatenates channel-wise to the full width
C1, and outputs a tensor of shape (B, C_out, 1, T2). -/
theorem up_block_forward_shapes (u : UpBlock) (b t1 t2 c2 : Nat)
    (hch : u.in_ch = 2 * c2) (ht : t1 ≤ t2) :
    (u.upsample ⟨b, u.in_ch, 1, t1⟩ t2).t = t2 ∧
    (u.upsample ⟨b, u.in_ch, 1, t1⟩ t2).c + c2 = u.in_ch ∧
    u.forward ⟨b, u.in_ch, 1, t1⟩ ⟨b, c2, 1, t2⟩ = some ⟨b, u.out_ch, 1, t2⟩ := by
  obtain ⟨ci, co⟩ := u
  simp only at hch
  subst hch
  have hhalf : 2 * c2 / 2 = c2 := by omega
  have hdouble : c2 + c2 = 2 * c2 := by omega
  refine ⟨rfl, ?_, ?_⟩
  · simp [UpBlock.upsample, hhalf, hdouble]
  · simp [UpBlock.forward, UpBlock.upsample, catChannels,
      DoubleConvBlock.forward, DoubleConvBlock.conv1, DoubleConvBlock.conv2,
      SingleConvBlock.forward, hhalf, hdouble]

/-- C6 witness: the UpBlock law evaluated at the parametrization of
test_UpBlock__01: C1 = 32, C2 = 16, T1 = 50, T2 = 100, C_out = 32. -/
theorem up_block_forward_shapes_witness :
    (UpBlock.upsample ⟨32, 32⟩ ⟨10, 32, 1, 50⟩ 100).t = 100 ∧
    (UpBlock.upsample ⟨32, 32⟩ ⟨10, 32, 1, 50⟩ 100).c + 16 = 32 ∧
    UpBlock.forward ⟨32, 32⟩ ⟨10, 32, 1, 50⟩ ⟨10, 16, 1, 100⟩ =
      some ⟨10, 32, 1, 100⟩ :=
  up_block_forward_shapes ⟨32, 32⟩ 10 50 100 16 (by decide) (by decide)

/-- C7: for positive channel widths C_in and C_out, both SingleConvBlock
and DoubleConvBlock map an input of shape (B, C_in, 1, T) to an output of
shape (B, C_out, 1, T), preserving batch, spatial singleton and time axes
while the channel axis becomes exactly C_out. -/
theorem conv_blocks_preserve_shape (b t cin cout : Nat)
    (h1 : 0 < cin) (h2 : 0 < cout) :
    SingleConvBlock.forward ⟨cin, cout⟩ ⟨b, cin, 1, t⟩ = some ⟨b, cout, 1, t⟩ ∧
    DoubleConvBlock.forward ⟨cin, cout⟩ ⟨b, cin, 1, t⟩ = some ⟨b, cout, 1, t⟩ := by
  constructor <;>
    simp [SingleConvBlock.forward, DoubleConvBlock.forward,
      DoubleConvBlock.conv1, DoubleConvBlock.conv2]

/-- C7 witness: the convolution-block law evaluated at the parametrization
of test_SingleConvBlock__01 and test_DoubleConvBlock__01: both blocks map
(10, 32, 1, 100) to (10, 32, 1, 100). -/
theorem conv_blocks_preserve_shape_witness :
    SingleConvBlock.forward ⟨32, 32⟩ ⟨10, 32, 1, 100⟩ = some ⟨10, 32, 1, 100⟩ ∧
    DoubleConvBlock.forward ⟨32, 32⟩ ⟨10, 32, 1, 100⟩ = some ⟨10, 32, 1, 100⟩ :=
  conv_blocks_preserve_shape 10 100 32 32 (by decide) (by decide)

/-- C9: assert_args raises ValueError exactly when continue_training and
initialize_from are both set (truthy), or max_train_samples_per_epoch is
below 1, or val_samples_per_epoch is below 1, or n_epochs is given and
below 1; otherwise it returns normally. -/
theorem assert_args_error_iff (a : TrainArgs) :
    (∃ msg, assert_args a = Except.error msg) ↔
      ((a.continue_training = true ∧ optStrTruthy a.initialize_from = true) ∨
        a.max_train_samples_per_epoch < 1 ∨ a.val_samples_per_epoch < 1 ∨
        (∃ n, a.n_epochs = some n ∧ n < 1)) := by
  rcases a with ⟨ct, ifrom, mx, vs, ne⟩
  simp only [assert_args]
  by_cases h1 : (ct && optStrTruthy ifrom) = true
  · rw [if_pos h1]
    rw [Bool.and_eq_true] at h1
    simp [h1]
  · rw [if_neg h1]
    rw [Bool.and_eq_true] at h1
    by_cases h2 : mx < 1 ∨ vs < 1
    · rw [if_pos h2]
      constructor
      · intro _
        tauto
      · intro _
        exact ⟨_, rfl⟩
    · rw [if_neg h2]
      rw [not_or] at h2
      cases ne with
      | none =>
        simp [h1, h2.1, h2.2]
      | some n =>
        by_cases h3 : n < 1
        · constructor
          · intro _
            exact Or.inr (Or.inr (Or.inr ⟨n, rfl, h3⟩))
          · intro _
            exact ⟨"n_epochs must be larger than >= 1.", by simp [h3]⟩
        · simp [h1, h2.1, h2.2, h3]

/-- C10: entry_func stops the GPU monitor and re-raises the exception
exactly when run raises; when run completes without raising, no stop call
occurs, so the monitor is left running, and in both cases the outcome of
run is propagated unchanged. -/
theorem entry_func_stops_monitor_iff_error (r : Except String Unit) :
    (entry_func r).2 = r ∧
    (TrainEvent.stopGpuMonitor ∈ (entry_func r).1 ↔ ∃ e, r = Except.error e) := by
  cases r with
  | ok u =>
    cases u
    constructor
    · rfl
    · simp [entry_func]
  | error e =>
    constructor
    · rfl
    · simp [entry_func]
